import Mathlib

/-
Verification of the portfolio-optimization orchestration layer
(openbb_terminal/portfolio/portfolio_optimization/optimizer_model.py).

The market-data provider (yahoo_finance_model), the attribute provider
(yfinance Ticker info) and the optimization engine (vendored riskfolio)
are external collaborators: entry points here receive the cleaned return
matrix directly and take the engine as a function argument.  Python floats
are modelled as rationals, except where the source takes a square root, in
which case values live in the reals.  A raised KeyError is modelled as the
value none of an outer Option.
-/

namespace OptimizerModel

/-- Python str.upper restricted to ASCII strings: uppercase every character. -/
def pyUpper (s : String) : String := ⟨s.data.map Char.toUpper⟩

/-- Module-level dict upper_risk: risk measure to upper-bound attribute name. -/
def upper_risk : List (String × String) :=
  [("MV", "upperdev"), ("MAD", "uppermad"), ("MSV", "uppersdev"),
   ("FLPM", "upperflpm"), ("SLPM", "upperslpm"), ("CVaR", "upperCVaR"),
   ("EVaR", "upperEVaR"), ("WR", "upperwr"), ("MDD", "uppermdd"),
   ("ADD", "upperadd"), ("CDaR", "upperCDaR"), ("EDaR", "upperEDaR"),
   ("UCI", "upperuci")]

/-- Module-level dict time_factor: frequency code to annualization factor. -/
def time_factor : List (String × ℚ) := [("D", 252), ("W", 52), ("M", 12)]

/-- The drawdown measure list of the target-risk branch in
get_mean_risk_portfolio. -/
def drawdown_measures : List String := ["ADD", "MDD", "CDaR", "EDaR", "UCI"]

/-- Cleaned return matrix: one column of periodic returns per ticker. -/
abbrev ReturnMatrix := List (String × List ℚ)

/-- Weight result of the external engine, one scalar per ticker. -/
abbrev Weights := List (String × ℚ)

/-- The engine Portfolio object, restricted to the fields this layer writes. -/
structure Portfolio where
  returns : ReturnMatrix
  alpha : ℚ
  mu : List (String × ℝ)
  cov : List (List ℝ)
  sht : Bool
  upperlng : ℝ
  uppersht : ℝ
  budget : ℝ
  lowerret : Option ℚ
  riskBounds : List (String × ℝ)

/-- Modelled from the spec: the constructor defaults of the external engine
Portfolio class (vendored riskfolio, outside src): a fresh problem descriptor
per call, with shorting disabled and no optional bound set. -/
def Portfolio.init (returns : ReturnMatrix) (alpha : ℚ) : Portfolio :=
  { returns := returns, alpha := alpha, mu := [], cov := [], sht := false,
    upperlng := 1, uppersht := 0, budget := 1, lowerret := none,
    riskBounds := [] }

/-- Modelled from the spec: default significance level used by the engine
Portfolio constructor when alpha is not passed. -/
def alphaDefault : ℚ := 5 / 100

/-- The setattr call keyed by an upper_risk field name; the newest binding
shadows older ones under lookup. -/
def Portfolio.setBound (p : Portfolio) (field : String) (v : ℝ) : Portfolio :=
  { p with riskBounds := (field, v) :: p.riskBounds }

/-- Banker rounding of a rational to the nearest integer, as Python round. -/
def roundHalfEven (q : ℚ) : ℤ :=
  if q - ⌊q⌋ = 1 / 2 then (if Even ⌊q⌋ then ⌊q⌋ else ⌊q⌋ + 1) else round q

/-- Rounding to five decimal places, as round(x, 5) and DataFrame.round(5). -/
def round5 (q : ℚ) : ℚ := (roundHalfEven (q * 100000) : ℚ) / 100000

/-- Post-processing weights.round(5) followed by to_dict. -/
def postRound (w : Option Weights) : Option Weights :=
  w.map (List.map (fun p => (p.1, round5 p.2)))

/-- Post-processing of the risk-parity and hierarchical paths: rescale by
value when positive, then round(5) and to_dict. -/
def postScaleRound (value : ℚ) (w : Option Weights) : Option Weights :=
  w.map (fun ws =>
    (if value > 0 then ws.map (fun p => (p.1, value * p.2)) else ws).map
      (fun p => (p.1, round5 p.2)))

/-- Sample mean of a return column. -/
def colMean (xs : List ℚ) : ℚ := xs.sum / xs.length

/-- Sample standard deviation of a return column, as pandas std with one
delta degree of freedom. -/
noncomputable def colStd (xs : List ℚ) : ℝ :=
  Real.sqrt ((xs.map (fun x => ((x : ℝ) - (colMean xs : ℝ)) ^ 2)).sum /
    ((xs.length : ℝ) - 1))

/-- Per-asset standard deviation row, as stock_returns.std().to_frame().T. -/
noncomputable def returns_std (r : ReturnMatrix) : List (String × ℝ) :=
  r.map (fun c => (c.1, colStd c.2))

/-- Modelled from the spec: the correlation-from-covariance utility of the
external engine (AuxFunctions.cov2corr is vendored outside src): each entry
divided by the square root of the product of the two diagonal entries. -/
noncomputable def cov2corr (cov : List (List ℝ)) : List (List ℝ) :=
  cov.mapIdx (fun i row => row.mapIdx (fun j v =>
    v / Real.sqrt (((cov.getD i []).getD i 0) * ((cov.getD j []).getD j 0))))

/-- Argument record of the engine call port.optimization in the classic
mean-risk family; l is none when the call site omits the risk aversion. -/
structure OptimizationCall where
  model : String
  rm : String
  obj : String
  rf : ℚ
  l : Option ℚ
  hist : Bool
  port : Portfolio

/-- Portfolio spec built by get_mean_risk_portfolio before the engine call:
budget constraints, then optional lower return bound, then optional upper
risk bound (scaled by the square root of the time factor except for the
drawdown measures); none models a raised KeyError. -/
noncomputable def mean_risk_port (stock_returns : ReturnMatrix) (freq : String)
    (risk_measure : String) (alpha : ℚ) (target_return target_risk : ℚ)
    (mu_est : List (String × ℝ)) (cov_est : List (List ℝ))
    (value value_short : ℚ) : Option Portfolio := do
  let F ← time_factor.lookup (pyUpper freq)
  let p0 := { Portfolio.init stock_returns alpha with mu := mu_est, cov := cov_est }
  let p1 := { p0 with upperlng := (value : ℝ) }
  let p2 :=
    if value_short > 0 then
      { p1 with sht := true, uppersht := (value_short : ℝ),
                budget := (value : ℝ) - (value_short : ℝ) }
    else { p1 with budget := (value : ℝ) }
  let p3 :=
    if target_return > -1 then { p2 with lowerret := some (target_return / F) }
    else p2
  if target_risk > -1 then do
    let field ← upper_risk.lookup risk_measure
    if risk_measure ∈ drawdown_measures then
      pure (p3.setBound field (target_risk : ℝ))
    else
      pure (p3.setBound field ((target_risk : ℝ) / ((F : ℝ) ^ (0.5 : ℝ))))
  else pure p3

/-- Entry point get_mean_risk_portfolio, with the data provider factored out
(stock_returns is the processed return matrix) and the engine passed in. -/
noncomputable def get_mean_risk_portfolio (stock_returns : ReturnMatrix)
    (freq : String) (risk_measure objective : String)
    (risk_free_rate risk_aversion alpha : ℚ) (target_return target_risk : ℚ)
    (mu_est : List (String × ℝ)) (cov_est : List (List ℝ))
    (value value_short : ℚ) (engine : OptimizationCall → Option Weights) :
    Option (Option Weights × ReturnMatrix) := do
  let F ← time_factor.lookup (pyUpper freq)
  let rf := risk_free_rate / F
  let port ← mean_risk_port stock_returns freq risk_measure alpha
    target_return target_risk mu_est cov_est value value_short
  let weights := engine
    { model := "Classic", rm := risk_measure, obj := objective, rf := rf,
      l := some risk_aversion, hist := true, port := port }
  pure (postRound weights, stock_returns)

/-- Portfolio spec built by get_max_diversification_portfolio: the estimated
mean is replaced by the per-asset return standard deviation, then the budget
constraints are applied. -/
noncomputable def max_div_port (stock_returns : ReturnMatrix)
    (mu_est : List (String × ℝ)) (cov_est : List (List ℝ))
    (value value_short : ℚ) : Portfolio :=
  let p0 := { Portfolio.init stock_returns alphaDefault with
              mu := mu_est, cov := cov_est }
  let p1 := { p0 with mu := returns_std stock_returns }
  let p2 := { p1 with upperlng := (value : ℝ) }
  if value_short > 0 then
    { p2 with sht := true, uppersht := (value_short : ℝ),
              budget := (value : ℝ) - (value_short : ℝ) }
  else { p2 with budget := (value : ℝ) }

/-- Engine call issued by get_max_diversification_portfolio. -/
noncomputable def max_div_call (stock_returns : ReturnMatrix)
    (mu_est : List (String × ℝ)) (cov_est : List (List ℝ))
    (value value_short : ℚ) : OptimizationCall :=
  { model := "Classic", rm := "MV", obj := "Sharpe", rf := 0, l := none,
    hist := true,
    port := max_div_port stock_returns mu_est cov_est value value_short }

/-- Entry point get_max_diversification_portfolio. -/
noncomputable def get_max_diversification_portfolio
    (stock_returns : ReturnMatrix) (mu_est : List (String × ℝ))
    (cov_est : List (List ℝ)) (value value_short : ℚ)
    (engine : OptimizationCall → Option Weights) :
    Option Weights × ReturnMatrix :=
  let weights := engine (max_div_call stock_returns mu_est cov_est value value_short)
  (postRound weights, stock_returns)

/-- Portfolio spec built by get_max_decorrelation_portfolio: the covariance
estimate is replaced by its correlation equivalent, then the budget
constraints are applied. -/
noncomputable def max_decorr_port (stock_returns : ReturnMatrix)
    (mu_est : List (String × ℝ)) (cov_est : List (List ℝ))
    (value value_short : ℚ) : Portfolio :=
  let p0 := { Portfolio.init stock_returns alphaDefault with
              mu := mu_est, cov := cov_est }
  let p1 := { p0 with cov := cov2corr p0.cov }
  let p2 := { p1 with upperlng := (value : ℝ) }
  if value_short > 0 then
    { p2 with sht := true, uppersht := (value_short : ℝ),
              budget := (value : ℝ) - (value_short : ℝ) }
  else { p2 with budget := (value : ℝ) }

/-- Entry point get_max_decorrelation_portfolio. -/
noncomputable def get_max_decorrelation_portfolio
    (stock_returns : ReturnMatrix) (mu_est : List (String × ℝ))
    (cov_est : List (List ℝ)) (value value_short : ℚ)
    (engine : OptimizationCall → Option Weights) :
    Option Weights × ReturnMatrix :=
  let call : OptimizationCall :=
    { model := "Classic", rm := "MV", obj := "MinRisk", rf := 0, l := none,
      hist := true,
      port := max_decorr_port stock_returns mu_est cov_est value value_short }
  (postRound (engine call), stock_returns)

/-- Entry point get_equal_weights, with the data provider factored out. -/
def get_equal_weights (stocks : List String) (stock_returns : ReturnMatrix)
    (value : ℚ) : Weights × ReturnMatrix :=
  (stocks.map (fun stock => (stock, value * round5 (1 / stocks.length))),
   stock_returns)

/-- Entry point get_property_weights; info models the attribute provider
(a ticker attribute that is missing or null counts as zero). -/
def get_property_weights (stocks : List String)
    (stock_returns : ReturnMatrix) (info : String → Option ℚ) (value : ℚ) :
    Option Weights × Option ReturnMatrix :=
  let prop := stocks.map (fun stock => (stock, (info stock).getD 0))
  let prop_sum := (prop.map Prod.snd).sum
  if prop_sum = 0 then (none, none)
  else (some (prop.map (fun p => (p.1, value * p.2 / prop_sum))),
        some stock_returns)

/-- Elementwise division of the risk contribution vector by its sum. -/
def normalize_risk_cont (v : List ℚ) : List ℚ := v.map (fun x => x / v.sum)

/-- Risk contribution argument of the parity engine calls: none stays none,
otherwise the vector is normalized by its sum. -/
def risk_cont_arg (risk_cont : Option (List ℚ)) : Option (List ℚ) :=
  risk_cont.map normalize_risk_cont

/-- Argument record of the engine call port.rp_optimization. -/
structure RPCall where
  model : String
  rm : String
  rf : ℚ
  b : Option (List ℚ)
  hist : Bool
  port : Portfolio

/-- Portfolio spec built by get_risk_parity_portfolio: only the optional
lower return bound is set. -/
def rp_port (stock_returns : ReturnMatrix) (freq : String) (alpha : ℚ)
    (target_return : ℚ) (mu_est : List (String × ℝ))
    (cov_est : List (List ℝ)) : Option Portfolio := do
  let F ← time_factor.lookup (pyUpper freq)
  let p0 := { Portfolio.init stock_returns alpha with mu := mu_est, cov := cov_est }
  pure (if target_return > -1 then { p0 with lowerret := some (target_return / F) }
        else p0)

/-- Engine call assembled by get_risk_parity_portfolio. -/
def rp_call (stock_returns : ReturnMatrix) (freq : String)
    (risk_measure : String) (risk_cont : Option (List ℚ))
    (risk_free_rate alpha target_return : ℚ)
    (mu_est : List (String × ℝ)) (cov_est : List (List ℝ)) :
    Option RPCall := do
  let F ← time_factor.lookup (pyUpper freq)
  let rf := risk_free_rate / F
  let port ← rp_port stock_returns freq alpha target_return mu_est cov_est
  pure { model := "Classic", rm := risk_measure, rf := rf,
         b := risk_cont_arg risk_cont, hist := true, port := port }

/-- Entry point get_risk_parity_portfolio. -/
def get_risk_parity_portfolio (stock_returns : ReturnMatrix) (freq : String)
    (risk_measure : String) (risk_cont : Option (List ℚ))
    (risk_free_rate alpha target_return value : ℚ)
    (mu_est : List (String × ℝ)) (cov_est : List (List ℝ))
    (engine : RPCall → Option Weights) :
    Option (Option Weights × ReturnMatrix) := do
  let call ← rp_call stock_returns freq risk_measure risk_cont risk_free_rate
    alpha target_return mu_est cov_est
  let weights := engine call
  pure (postScaleRound value weights, stock_returns)

/-- Argument record of the engine call port.rrp_optimization. -/
structure RRPCall where
  model : String
  version : String
  l : ℚ
  b : Option (List ℚ)
  hist : Bool
  port : Portfolio

/-- Portfolio spec built by get_rel_risk_parity_portfolio; the frequency
table is consulted only when a target return is supplied. -/
def rrp_port (stock_returns : ReturnMatrix) (freq : String)
    (target_return : ℚ) (mu_est : List (String × ℝ))
    (cov_est : List (List ℝ)) : Option Portfolio :=
  let p0 := { Portfolio.init stock_returns alphaDefault with
              mu := mu_est, cov := cov_est }
  if target_return > -1 then do
    let F ← time_factor.lookup (pyUpper freq)
    pure { p0 with lowerret := some (target_return / F) }
  else pure p0

/-- Engine call assembled by get_rel_risk_parity_portfolio. -/
def rrp_call (stock_returns : ReturnMatrix) (freq : String)
    (version : String) (risk_cont : Option (List ℚ))
    (penal_factor target_return : ℚ) (mu_est : List (String × ℝ))
    (cov_est : List (List ℝ)) : Option RRPCall := do
  let port ← rrp_port stock_returns freq target_return mu_est cov_est
  pure { model := "Classic", version := version, l := penal_factor,
         b := risk_cont_arg risk_cont, hist := true, port := port }

/-- Entry point get_rel_risk_parity_portfolio. -/
def get_rel_risk_parity_portfolio (stock_returns : ReturnMatrix)
    (freq : String) (version : String) (risk_cont : Option (List ℚ))
    (penal_factor target_return value : ℚ) (mu_est : List (String × ℝ))
    (cov_est : List (List ℝ)) (engine : RRPCall → Option Weights) :
    Option (Option Weights × ReturnMatrix) := do
  let call ← rrp_call stock_returns freq version risk_cont penal_factor
    target_return mu_est cov_est
  let weights := engine call
  pure (postScaleRound value weights, stock_returns)

/-- The engine HCPortfolio object, restricted to the fields this layer sets. -/
structure HCPortfolio where
  returns : ReturnMatrix
  alpha : ℚ
  a_sim : ℕ
  beta : Option ℚ
  b_sim : Option ℕ

/-- Argument record of the engine call port.optimization on an HCPortfolio. -/
structure HCPCall where
  model : String
  codependence : String
  covariance : String
  obj : String
  rm : String
  rf : ℚ
  l : ℚ
  linkage : String
  k : ℕ
  max_k : ℕ
  bins_info : String
  alpha_tail : ℚ
  leaf_order : Bool
  d : ℚ
  port : HCPortfolio

/-- Entry point get_hcp_portfolio. -/
def get_hcp_portfolio (stock_returns : ReturnMatrix) (freq : String)
    (model codependence covariance objective risk_measure : String)
    (risk_free_rate risk_aversion alpha : ℚ) (a_sim : ℕ) (beta : Option ℚ)
    (b_sim : Option ℕ) (linkage : String) (k max_k : ℕ) (bins_info : String)
    (alpha_tail : ℚ) (leaf_order : Bool) (d_ewma value : ℚ)
    (engine : HCPCall → Option Weights) :
    Option (Option Weights × ReturnMatrix) := do
  let linkage2 := if linkage = "dbht" then pyUpper linkage else linkage
  let F ← time_factor.lookup (pyUpper freq)
  let rf := risk_free_rate / F
  let port : HCPortfolio :=
    { returns := stock_returns, alpha := alpha, a_sim := a_sim, beta := beta,
      b_sim := b_sim }
  let weights := engine
    { model := model, codependence := codependence, covariance := covariance,
      obj := objective, rm := risk_measure, rf := rf, l := risk_aversion,
      linkage := linkage2, k := k, max_k := max_k, bins_info := bins_info,
      alpha_tail := alpha_tail, leaf_order := leaf_order, d := d_ewma,
      port := port }
  pure (postScaleRound value weights, stock_returns)

/-- Rows of np.identity: the n single-asset unit portfolios. -/
def identityRows (n : ℕ) : List (List ℚ) :=
  (List.range n).map (fun i => (List.range n).map (fun j => if i = j then 1 else 0))

/-- Entry point generate_random_portfolios; dirichlet models the stateful
RandomState sampler: from a state it returns the sampled rows and the next
state, the initial state being the seed. -/
def generate_random_portfolios
    (dirichlet : ℕ → List ℚ → ℕ → List (List ℚ) × ℕ) (stocks : List String)
    (n_portfolios : ℕ) (seed : ℕ) (value : ℚ) : List (List ℚ) :=
  let assets := stocks
  let n_samples := n_portfolios / 3
  let rs := seed
  let d1 := dirichlet rs (List.replicate assets.length 1) n_samples
  let d2 := dirichlet d1.2 (List.replicate assets.length (65 / 100)) n_samples
  let d3 := dirichlet d2.2 (List.replicate assets.length 2) n_samples
  let w4 := identityRows assets.length
  let w := d1.1 ++ d2.1 ++ d3.1 ++ w4
  if value > 0 then w.map (List.map (fun x => value * x)) else w

/-- Relative-order preservation between two vectors, compared pairwise. -/
def preservesOrder (v w : List ℚ) : Prop :=
  ∀ p ∈ v.zip w, ∀ q ∈ v.zip w, (p.1 ≤ q.1 ↔ p.2 ≤ q.2)

/-- Concrete two-period return matrix used in closed counterexamples. -/
def demoReturns : ReturnMatrix := [("A", [1 / 100, -1 / 100])]

/-- Lookup of an association list whose head carries the sought key. -/
theorem lookup_head {β : Type} (k : String) (v : β) (l : List (String × β)) :
    List.lookup k ((k, v) :: l) = some v := by
  simp [List.lookup]

/-- Monadic bind of a present Option value. -/
theorem obind_some {α β : Type} (a : α) (f : α → Option β) :
    ((some a : Option α) >>= f) = f a := rfl

/-- C1: with a registered risk measure and a registered frequency, a supplied
target risk lands in the riskBounds slot named by upper_risk; it is stored
as-is for the drawdown measures ADD, MDD, CDaR, EDaR, UCI and divided by the
square root of the frequency factor for every other registered measure. -/
theorem mean_risk_target_risk_scaling
    (stock_returns : ReturnMatrix) (freq risk_measure : String)
    (alpha target_return target_risk : ℚ)
    (mu_est : List (String × ℝ)) (cov_est : List (List ℝ))
    (value value_short : ℚ) (F : ℚ) (field : String)
    (hF : time_factor.lookup (pyUpper freq) = some F)
    (hreg : upper_risk.lookup risk_measure = some field)
    (ht : target_risk > -1) :
    ∃ port : Portfolio,
      mean_risk_port stock_returns freq risk_measure alpha target_return
        target_risk mu_est cov_est value value_short = some port ∧
      port.riskBounds.lookup field =
        some (if risk_measure ∈ drawdown_measures then (target_risk : ℝ)
              else (target_risk : ℝ) / Real.sqrt (F : ℝ)) := by
  have hsq : ((F : ℝ) ^ (0.5 : ℝ)) = Real.sqrt (F : ℝ) := by
    rw [Real.sqrt_eq_rpow]
    norm_num
  unfold mean_risk_port
  rw [hF]
  simp only [obind_some]
  rw [if_pos ht, hreg]
  simp only [obind_some]
  by_cases hm : risk_measure ∈ drawdown_measures
  · rw [if_pos hm]
    exact ⟨_, rfl, by simp [Portfolio.setBound, lookup_head, hm]⟩
  · rw [if_neg hm]
    exact ⟨_, rfl, by simp [Portfolio.setBound, lookup_head, hm, hsq]⟩

/-- C1 witness: measure MDD with daily frequency keeps a target risk of 0.1
unscaled. -/
theorem mean_risk_target_risk_scaling_witness :
    time_factor.lookup (pyUpper "D") = some 252 ∧
    upper_risk.lookup "MDD" = some "uppermdd" ∧
    ((1 : ℚ) / 10) > -1 ∧
    ∃ port : Portfolio,
      mean_risk_port demoReturns "D" "MDD" (5 / 100) (-1) (1 / 10) [] [] 1 0 =
        some port ∧
      port.riskBounds.lookup "uppermdd" =
        some (if "MDD" ∈ drawdown_measures then ((1 / 10 : ℚ) : ℝ)
              else ((1 / 10 : ℚ) : ℝ) / Real.sqrt ((252 : ℚ) : ℝ)) :=
  ⟨by decide, by decide, by norm_num,
   mean_risk_target_risk_scaling demoReturns "D" "MDD" (5 / 100) (-1) (1 / 10)
     [] [] 1 0 252 "uppermdd" (by decide) (by decide) (by norm_num)⟩

/-- Exact budget-related field values of the mean-risk portfolio spec. -/
theorem mean_risk_port_budget_fields
    (stock_returns : ReturnMatrix) (freq risk_measure : String)
    (alpha target_return target_risk : ℚ)
    (mu_est : List (String × ℝ)) (cov_est : List (List ℝ))
    (value value_short : ℚ) (F : ℚ)
    (hF : time_factor.lookup (pyUpper freq) = some F)
    (hreg : target_risk > -1 → ∃ field, upper_risk.lookup risk_measure = some field) :
    ∃ port : Portfolio,
      mean_risk_port stock_returns freq risk_measure alpha target_return
        target_risk mu_est cov_est value value_short = some port ∧
      port.upperlng = (value : ℝ) ∧
      port.sht = (if value_short > 0 then true else false) ∧
      port.uppersht = (if value_short > 0 then (value_short : ℝ) else 0) ∧
      port.budget = (if value_short > 0 then (value : ℝ) - (value_short : ℝ)
                     else (value : ℝ)) := by
  unfold mean_risk_port
  rw [hF]
  simp only [obind_some]
  by_cases htr : target_risk > -1
  · obtain ⟨field, hfield⟩ := hreg htr
    rw [if_pos htr, hfield]
    simp only [obind_some]
    by_cases hm : risk_measure ∈ drawdown_measures
    · rw [if_pos hm]
      refine ⟨_, rfl, ?_⟩
      by_cases hvs : value_short > 0 <;> by_cases htr2 : target_return > -1 <;>
        simp [Portfolio.setBound, Portfolio.init, hvs, htr2]
    · rw [if_neg hm]
      refine ⟨_, rfl, ?_⟩
      by_cases hvs : value_short > 0 <;> by_cases htr2 : target_return > -1 <;>
        simp [Portfolio.setBound, Portfolio.init, hvs, htr2]
  · rw [if_neg htr]
    refine ⟨_, rfl, ?_⟩
    by_cases hvs : value_short > 0 <;> by_cases htr2 : target_return > -1 <;>
      simp [Portfolio.init, hvs, htr2]

/-- Exact budget-related field values of the max-diversification spec. -/
theorem max_div_port_budget_fields
    (stock_returns : ReturnMatrix) (mu_est : List (String × ℝ))
    (cov_est : List (List ℝ)) (value value_short : ℚ) :
    (max_div_port stock_returns mu_est cov_est value value_short).upperlng
        = (value : ℝ) ∧
    (max_div_port stock_returns mu_est cov_est value value_short).sht
        = (if value_short > 0 then true else false) ∧
    (max_div_port stock_returns mu_est cov_est value value_short).uppersht
        = (if value_short > 0 then (value_short : ℝ) else 0) ∧
    (max_div_port stock_returns mu_est cov_est value value_short).budget
        = (if value_short > 0 then (value : ℝ) - (value_short : ℝ)
           else (value : ℝ)) := by
  by_cases hvs : value_short > 0 <;>
    simp [max_div_port, Portfolio.init, hvs]

/-- Exact budget-related field values of the max-decorrelation spec. -/
theorem max_decorr_port_budget_fields
    (stock_returns : ReturnMatrix) (mu_est : List (String × ℝ))
    (cov_est : List (List ℝ)) (value value_short : ℚ) :
    (max_decorr_port stock_returns mu_est cov_est value value_short).upperlng
        = (value : ℝ) ∧
    (max_decorr_port stock_returns mu_est cov_est value value_short).sht
        = (if value_short > 0 then true else false) ∧
    (max_decorr_port stock_returns mu_est cov_est value value_short).uppersht
        = (if value_short > 0 then (value_short : ℝ) else 0) ∧
    (max_decorr_port stock_returns mu_est cov_est value value_short).budget
        = (if value_short > 0 then (value : ℝ) - (value_short : ℝ)
           else (value : ℝ)) := by
  by_cases hvs : value_short > 0 <;>
    simp [max_decorr_port, Portfolio.init, hvs]

/-- Conditional budget clauses shared by the three C2 specs. -/
def budget_clauses (value value_short : ℚ) (p : Portfolio) : Prop :=
  p.upperlng = (value : ℝ) ∧
  (value_short > 0 → p.sht = true ∧ p.uppersht = (value_short : ℝ) ∧
    p.budget = (value : ℝ) - (value_short : ℝ)) ∧
  (value_short = 0 → p.budget = (value : ℝ) ∧ p.sht = false)

/-- Derivation of the conditional clauses from exact field values. -/
theorem budget_clauses_of_fields (value value_short : ℚ) (p : Portfolio)
    (h1 : p.upperlng = (value : ℝ))
    (h2 : p.sht = (if value_short > 0 then true else false))
    (h3 : p.uppersht = (if value_short > 0 then (value_short : ℝ) else 0))
    (h4 : p.budget = (if value_short > 0 then (value : ℝ) - (value_short : ℝ)
                      else (value : ℝ))) :
    budget_clauses value value_short p := by
  refine ⟨h1, ?_, ?_⟩
  · intro hv
    rw [if_pos hv] at h2 h3 h4
    exact ⟨h2, h3, h4⟩
  · intro hv0
    have hnv : ¬ value_short > 0 := by
      rw [hv0]
      norm_num
    rw [if_neg hnv] at h2 h4
    exact ⟨h4, h2⟩

/-- C2: the mean-risk, max-diversification and max-decorrelation builders
set the long upper bound to value; with positive value_short they enable
shorting, cap shorts at value_short and set the budget to
value - value_short; with value_short zero the budget is value and shorting
stays disabled. -/
theorem budget_constraint_translation
    (stock_returns : ReturnMatrix) (freq risk_measure : String)
    (alpha target_return target_risk : ℚ)
    (mu_est : List (String × ℝ)) (cov_est : List (List ℝ))
    (value value_short : ℚ) (F : ℚ)
    (hF : time_factor.lookup (pyUpper freq) = some F)
    (hreg : target_risk > -1 → ∃ field, upper_risk.lookup risk_measure = some field) :
    (∃ port : Portfolio,
       mean_risk_port stock_returns freq risk_measure alpha target_return
         target_risk mu_est cov_est value value_short = some port ∧
       budget_clauses value value_short port) ∧
    budget_clauses value value_short
      (max_div_port stock_returns mu_est cov_est value value_short) ∧
    budget_clauses value value_short
      (max_decorr_port stock_returns mu_est cov_est value value_short) := by
  obtain ⟨port, hp, h1, h2, h3, h4⟩ := mean_risk_port_budget_fields
    stock_returns freq risk_measure alpha target_return target_risk
    mu_est cov_est value value_short F hF hreg
  obtain ⟨g1, g2, g3, g4⟩ := max_div_port_budget_fields
    stock_returns mu_est cov_est value value_short
  obtain ⟨e1, e2, e3, e4⟩ := max_decorr_port_budget_fields
    stock_returns mu_est cov_est value value_short
  exact ⟨⟨port, hp, budget_clauses_of_fields value value_short port h1 h2 h3 h4⟩,
    budget_clauses_of_fields value value_short _ g1 g2 g3 g4,
    budget_clauses_of_fields value value_short _ e1 e2 e3 e4⟩

/-- C2 witness: daily frequency, measure MV, value one and value_short of
three tenths give a budget of seven tenths with shorting enabled. -/
theorem budget_constraint_translation_witness :
    time_factor.lookup (pyUpper "D") = some 252 ∧
    (∃ port : Portfolio,
       mean_risk_port demoReturns "D" "MV" (5 / 100) (-1) (-1) [] [] 1 (3 / 10) =
         some port ∧ budget_clauses 1 (3 / 10) port) ∧
    budget_clauses 1 (3 / 10) (max_div_port demoReturns [] [] 1 (3 / 10)) ∧
    budget_clauses 1 (3 / 10) (max_decorr_port demoReturns [] [] 1 (3 / 10)) :=
  ⟨by decide,
   budget_constraint_translation demoReturns "D" "MV" (5 / 100) (-1) (-1)
     [] [] 1 (3 / 10) 252 (by decide)
     (fun h => ⟨"upperdev", by decide⟩)⟩

/-- Second components of the zip of a list with its own map. -/
theorem snd_of_mem_zip_map (f : ℚ → ℚ) (v : List ℚ) (p : ℚ × ℚ)
    (hp : p ∈ v.zip (v.map f)) : p.2 = f p.1 := by
  induction v with
  | nil => simp at hp
  | cons a t ih =>
      simp only [List.map_cons, List.zip_cons_cons, List.mem_cons] at hp
      rcases hp with h | h
      · rw [h]
      · exact ih h

/-- Normalization by a nonzero sum yields a vector of sum one. -/
theorem normalize_sum (v : List ℚ) (hs : v.sum ≠ 0) :
    (normalize_risk_cont v).sum = 1 := by
  unfold normalize_risk_cont
  simp only [div_eq_mul_inv]
  rw [List.sum_map_mul_right]
  simp [mul_inv_cancel₀ hs]

/-- Normalization by a positive sum preserves relative ordering. -/
theorem normalize_preservesOrder (v : List ℚ) (hs : 0 < v.sum) :
    preservesOrder v (normalize_risk_cont v) := by
  intro p hp q hq
  have hp2 := snd_of_mem_zip_map (fun x => x / v.sum) v p hp
  have hq2 := snd_of_mem_zip_map (fun x => x / v.sum) v q hq
  rw [hp2, hq2]
  exact (div_le_div_iff_of_pos_right hs).symm

/-- C3 counterexample: for the non-empty input vector with entries -1 and -2
the normalization used by the parity entry points reverses the relative
order of the entries, refuting the claim as stated. -/
theorem risk_cont_normalization_cex :
    normalize_risk_cont [-1, -2] = [1 / 3, 2 / 3] ∧
    ¬ preservesOrder [-1, -2] (normalize_risk_cont [-1, -2]) := by
  have hn : normalize_risk_cont [-1, -2] = [1 / 3, 2 / 3] := by
    norm_num [normalize_risk_cont]
  refine ⟨hn, ?_⟩
  rw [hn]
  intro h
  have h2 := h (-2, 2 / 3) (by norm_num) (-1, 1 / 3) (by norm_num)
  have h3 := h2.mp (by norm_num)
  norm_num at h3

/-- C3 amended: for every non-empty risk contribution vector whose entries
sum to a positive value, both parity entry points hand the engine the input
vector divided by its sum; that normalized vector sums to one and preserves
the relative ordering of the input entries. -/
theorem risk_cont_normalization
    (v : List ℚ) (stock_returns : ReturnMatrix) (freq : String)
    (risk_measure version : String) (risk_free_rate alpha target_return : ℚ)
    (penal_factor : ℚ) (mu_est : List (String × ℝ)) (cov_est : List (List ℝ))
    (F : ℚ) (hF : time_factor.lookup (pyUpper freq) = some F)
    (_hne : v ≠ []) (hs : 0 < v.sum) :
    (∃ call : RPCall,
       rp_call stock_returns freq risk_measure (some v) risk_free_rate alpha
         target_return mu_est cov_est = some call ∧
       call.b = some (v.map (fun x => x / v.sum))) ∧
    (∃ call : RRPCall,
       rrp_call stock_returns freq version (some v) penal_factor
         target_return mu_est cov_est = some call ∧
       call.b = some (v.map (fun x => x / v.sum))) ∧
    (normalize_risk_cont v).sum = 1 ∧
    preservesOrder v (normalize_risk_cont v) := by
  refine ⟨?_, ?_, normalize_sum v hs.ne', normalize_preservesOrder v hs⟩
  · unfold rp_call rp_port
    rw [hF]
    simp only [obind_some]
    by_cases htr : target_return > -1 <;>
      simp [htr, risk_cont_arg, normalize_risk_cont]
  · unfold rrp_call rrp_port
    by_cases htr : target_return > -1
    · rw [if_pos htr, hF]
      simp [risk_cont_arg, normalize_risk_cont]
    · rw [if_neg htr]
      simp [risk_cont_arg, normalize_risk_cont]

/-- C3 witness: the vector with entries one and two, at daily frequency. -/
theorem risk_cont_normalization_witness :
    time_factor.lookup (pyUpper "D") = some 252 ∧
    ([(1 : ℚ), 2] ≠ []) ∧ (0 < [(1 : ℚ), 2].sum) ∧
    ((∃ call : RPCall,
       rp_call demoReturns "D" "MV" (some [1, 2]) 0 (5 / 100) (-1) [] [] =
         some call ∧
       call.b = some ([(1 : ℚ), 2].map (fun x => x / [(1 : ℚ), 2].sum))) ∧
    (∃ call : RRPCall,
       rrp_call demoReturns "D" "A" (some [1, 2]) 1 (-1) [] [] = some call ∧
       call.b = some ([(1 : ℚ), 2].map (fun x => x / [(1 : ℚ), 2].sum))) ∧
    (normalize_risk_cont [1, 2]).sum = 1 ∧
    preservesOrder [1, 2] (normalize_risk_cont [1, 2])) :=
  ⟨by decide, by decide, by norm_num,
   risk_cont_normalization [1, 2] demoReturns "D" "MV" "A" 0 (5 / 100) (-1) 1
     [] [] 252 (by decide) (by decide) (by norm_num)⟩

/-- C4: when the external engine returns the no-solution sentinel none,
every optimization entry point returns none paired with the unchanged
return matrix: no rounding, no value rescale and no exception. -/
theorem engine_none_propagation
    (stock_returns : ReturnMatrix) (freq : String)
    (risk_measure objective version : String)
    (risk_free_rate risk_aversion alpha target_return target_risk : ℚ)
    (penal_factor : ℚ) (risk_cont : Option (List ℚ))
    (mu_est : List (String × ℝ)) (cov_est : List (List ℝ))
    (value value_short : ℚ)
    (model codependence covariance : String) (a_sim : ℕ) (beta : Option ℚ)
    (b_sim : Option ℕ) (linkage : String) (k max_k : ℕ) (bins_info : String)
    (alpha_tail : ℚ) (leaf_order : Bool) (d_ewma : ℚ) (F : ℚ)
    (hF : time_factor.lookup (pyUpper freq) = some F)
    (hreg : target_risk > -1 → ∃ field, upper_risk.lookup risk_measure = some field) :
    get_mean_risk_portfolio stock_returns freq risk_measure objective
      risk_free_rate risk_aversion alpha target_return target_risk mu_est
      cov_est value value_short (fun _ => none) = some (none, stock_returns) ∧
    get_max_diversification_portfolio stock_returns mu_est cov_est value
      value_short (fun _ => none) = (none, stock_returns) ∧
    get_max_decorrelation_portfolio stock_returns mu_est cov_est value
      value_short (fun _ => none) = (none, stock_returns) ∧
    get_risk_parity_portfolio stock_returns freq risk_measure risk_cont
      risk_free_rate alpha target_return value mu_est cov_est (fun _ => none) =
      some (none, stock_returns) ∧
    get_rel_risk_parity_portfolio stock_returns freq version risk_cont
      penal_factor target_return value mu_est cov_est (fun _ => none) =
      some (none, stock_returns) ∧
    get_hcp_portfolio stock_returns freq model codependence covariance
      objective risk_measure risk_free_rate risk_aversion alpha a_sim beta
      b_sim linkage k max_k bins_info alpha_tail leaf_order d_ewma value
      (fun _ => none) = some (none, stock_returns) := by
  refine ⟨?_, rfl, rfl, ?_, ?_, ?_⟩
  · obtain ⟨port, hp, -⟩ := mean_risk_port_budget_fields stock_returns freq
      risk_measure alpha target_return target_risk mu_est cov_est value
      value_short F hF hreg
    unfold get_mean_risk_portfolio
    rw [hF]
    simp only [obind_some]
    rw [hp]
    simp only [obind_some]
    rfl
  · unfold get_risk_parity_portfolio rp_call rp_port
    rw [hF]
    simp only [obind_some]
    by_cases htr : target_return > -1 <;> simp [htr, postScaleRound]
  · unfold get_rel_risk_parity_portfolio rrp_call rrp_port
    by_cases htr : target_return > -1
    · rw [if_pos htr, hF]
      simp [postScaleRound]
    · rw [if_neg htr]
      simp [postScaleRound]
  · unfold get_hcp_portfolio
    rw [hF]
    simp only [obind_some]
    rfl

/-- C4 witness: concrete daily-frequency calls with an engine that always
reports no feasible solution. -/
theorem engine_none_propagation_witness :
    time_factor.lookup (pyUpper "D") = some 252 ∧
    (get_mean_risk_portfolio demoReturns "D" "MV" "Sharpe" 0 2 (5 / 100) (-1)
       (-1) [] [] 1 0 (fun _ => none) = some (none, demoReturns) ∧
     get_max_diversification_portfolio demoReturns [] [] 1 0 (fun _ => none) =
       (none, demoReturns) ∧
     get_max_decorrelation_portfolio demoReturns [] [] 1 0 (fun _ => none) =
       (none, demoReturns) ∧
     get_risk_parity_portfolio demoReturns "D" "MV" none 0 (5 / 100) (-1) 1
       [] [] (fun _ => none) = some (none, demoReturns) ∧
     get_rel_risk_parity_portfolio demoReturns "D" "A" none 1 (-1) 1 [] []
       (fun _ => none) = some (none, demoReturns) ∧
     get_hcp_portfolio demoReturns "D" "HRP" "pearson" "hist" "MinRisk" "MV"
       0 1 (5 / 100) 100 none none "single" 0 10 "KN" (5 / 100) true
       (94 / 100) 1 (fun _ => none) = some (none, demoReturns)) :=
  ⟨by decide,
   engine_none_propagation demoReturns "D" "MV" "Sharpe" "A" 0 2 (5 / 100)
     (-1) (-1) 1 none [] [] 1 0 "HRP" "pearson" "hist" 100 none none "single"
     0 10 "KN" (5 / 100) true (94 / 100) 252 (by decide)
     (fun h => ⟨"upperdev", by decide⟩)⟩

/-- C5 counterexample: when every per-asset attribute is unavailable the
property-weighting entry point returns none in both components, so its
second component is not the return matrix the computation used. -/
theorem output_pair_shape_cex :
    get_property_weights ["A"] demoReturns (fun _ => none) 1 = (none, none) := by
  norm_num [get_property_weights]

/-- C5 amended: every public entry point returns its weight result paired
with the return matrix it used, except get_property_weights when the
per-asset attribute sum is zero, in which case it returns none paired with
none. -/
theorem output_pair_shape
    (stocks : List String) (stock_returns : ReturnMatrix)
    (info : String → Option ℚ) (freq : String)
    (risk_measure objective version : String)
    (risk_free_rate risk_aversion alpha target_return target_risk : ℚ)
    (penal_factor : ℚ) (risk_cont : Option (List ℚ))
    (mu_est : List (String × ℝ)) (cov_est : List (List ℝ))
    (value value_short : ℚ)
    (model codependence covariance : String) (a_sim : ℕ) (beta : Option ℚ)
    (b_sim : Option ℕ) (linkage : String) (k max_k : ℕ) (bins_info : String)
    (alpha_tail : ℚ) (leaf_order : Bool) (d_ewma : ℚ) (F : ℚ)
    (engineO engineO2 engineO3 : OptimizationCall → Option Weights)
    (engineRP : RPCall → Option Weights) (engineRRP : RRPCall → Option Weights)
    (engineHC : HCPCall → Option Weights)
    (hF : time_factor.lookup (pyUpper freq) = some F)
    (hreg : target_risk > -1 → ∃ field, upper_risk.lookup risk_measure = some field) :
    (get_equal_weights stocks stock_returns value).2 = stock_returns ∧
    (((stocks.map (fun stock => (stock, (info stock).getD 0))).map Prod.snd).sum ≠ 0 →
       (get_property_weights stocks stock_returns info value).2 = some stock_returns) ∧
    (((stocks.map (fun stock => (stock, (info stock).getD 0))).map Prod.snd).sum = 0 →
       get_property_weights stocks stock_returns info value = (none, none)) ∧
    (∃ r, get_mean_risk_portfolio stock_returns freq risk_measure objective
       risk_free_rate risk_aversion alpha target_return target_risk mu_est
       cov_est value value_short engineO = some (r, stock_returns)) ∧
    (get_max_diversification_portfolio stock_returns mu_est cov_est value
       value_short engineO2).2 = stock_returns ∧
    (get_max_decorrelation_portfolio stock_returns mu_est cov_est value
       value_short engineO3).2 = stock_returns ∧
    (∃ r, get_risk_parity_portfolio stock_returns freq risk_measure risk_cont
       risk_free_rate alpha target_return value mu_est cov_est engineRP =
       some (r, stock_returns)) ∧
    (∃ r, get_rel_risk_parity_portfolio stock_returns freq version risk_cont
       penal_factor target_return value mu_est cov_est engineRRP =
       some (r, stock_returns)) ∧
    (∃ r, get_hcp_portfolio stock_returns freq model codependence covariance
       objective risk_measure risk_free_rate risk_aversion alpha a_sim beta
       b_sim linkage k max_k bins_info alpha_tail leaf_order d_ewma value
       engineHC = some (r, stock_returns)) := by
  refine ⟨rfl, ?_, ?_, ?_, rfl, rfl, ?_, ?_, ?_⟩
  · intro h
    unfold get_property_weights
    rw [if_neg h]
  · intro h
    unfold get_property_weights
    rw [if_pos h]
  · obtain ⟨port, hp, -⟩ := mean_risk_port_budget_fields stock_returns freq
      risk_measure alpha target_return target_risk mu_est cov_est value
      value_short F hF hreg
    unfold get_mean_risk_portfolio
    rw [hF]
    simp only [obind_some]
    rw [hp]
    simp only [obind_some]
    exact ⟨_, rfl⟩
  · unfold get_risk_parity_portfolio rp_call rp_port
    rw [hF]
    simp only [obind_some]
    by_cases htr : target_return > -1
    · rw [if_pos htr]
      exact ⟨_, rfl⟩
    · rw [if_neg htr]
      exact ⟨_, rfl⟩
  · unfold get_rel_risk_parity_portfolio rrp_call rrp_port
    by_cases htr : target_return > -1
    · rw [if_pos htr, hF]
      exact ⟨_, rfl⟩
    · rw [if_neg htr]
      exact ⟨_, rfl⟩
  · unfold get_hcp_portfolio
    rw [hF]
    simp only [obind_some]
    exact ⟨_, rfl⟩

/-- C5 witness: one-asset universe with an available attribute at daily
frequency. -/
theorem output_pair_shape_witness :
    time_factor.lookup (pyUpper "D") = some 252 ∧
    ((get_equal_weights ["A"] demoReturns 1).2 = demoReturns ∧
    ((["A"].map (fun stock =>
        (stock, ((fun _ => some (2 : ℚ)) stock).getD 0))).map Prod.snd).sum ≠ 0 →
       (get_property_weights ["A"] demoReturns (fun _ => some 2) 1).2 =
         some demoReturns) := by
  refine ⟨by decide, ?_⟩
  obtain ⟨h1, h2, -⟩ := output_pair_shape ["A"] demoReturns (fun _ => some 2)
    "D" "MV" "Sharpe" "A" 0 2 (5 / 100) (-1) (-1) 1 none [] [] 1 0 "HRP"
    "pearson" "hist" 100 none none "single" 0 10 "KN" (5 / 100) true
    (94 / 100) 252 (fun _ => none) (fun _ => none) (fun _ => none)
    (fun _ => none) (fun _ => none) (fun _ => none) (by decide)
    (fun h => ⟨"upperdev", by decide⟩)
  exact fun _ => h2 (by norm_num)

/-- C6: dividing an annual value by the annualization factor raised to the
half power, then multiplying by the square root of that factor, recovers the
value, for each registered frequency D, W and M. -/
theorem to_period_half_round_trip (x : ℝ) (freq : String) (F : ℚ)
    (hfreq : freq ∈ ["D", "W", "M"])
    (hF : time_factor.lookup freq = some F) :
    (x / ((F : ℝ) ^ (0.5 : ℝ))) * Real.sqrt (F : ℝ) = x := by
  have hcases : freq = "D" ∨ freq = "W" ∨ freq = "M" := by simpa using hfreq
  have hFpos : (0 : ℚ) < F := by
    rcases hcases with h | h | h <;> subst h <;>
      simp [time_factor, List.lookup] at hF <;> subst hF <;> norm_num
  have hFR : (0 : ℝ) < (F : ℝ) := by exact_mod_cast hFpos
  have hsq : ((F : ℝ) ^ (0.5 : ℝ)) = Real.sqrt (F : ℝ) := by
    rw [Real.sqrt_eq_rpow]
    norm_num
  rw [hsq, div_mul_cancel₀]
  exact Real.sqrt_ne_zero'.mpr hFR

/-- C6 witness: daily frequency with its factor 252. -/
theorem to_period_half_round_trip_witness :
    ("D" ∈ ["D", "W", "M"]) ∧ time_factor.lookup "D" = some 252 ∧
    ((7 : ℝ) / (((252 : ℚ) : ℝ) ^ (0.5 : ℝ))) * Real.sqrt ((252 : ℚ) : ℝ) = 7 :=
  ⟨by decide, by decide,
   to_period_half_round_trip 7 "D" 252 (by decide) (by decide)⟩

/-- C7: over N assets the random portfolio table holds three dirichlet
batches of ⌊n/3⌋ samples each, with per-asset concentration parameters 1,
0.65 and 2, followed by the N single-asset unit vectors, for a total of
3⌊n/3⌋ + N portfolios, whatever the value rescale. -/
theorem random_portfolios_structure
    (dirichlet : ℕ → List ℚ → ℕ → List (List ℚ) × ℕ)
    (stocks : List String) (n_portfolios seed : ℕ)
    (hlen : ∀ st a n, ((dirichlet st a n).1).length = n) :
    (∀ value : ℚ,
      (generate_random_portfolios dirichlet stocks n_portfolios seed value).length =
        3 * (n_portfolios / 3) + stocks.length) ∧
    generate_random_portfolios dirichlet stocks n_portfolios seed 1 =
      (dirichlet seed (List.replicate stocks.length 1) (n_portfolios / 3)).1 ++
      (dirichlet
        (dirichlet seed (List.replicate stocks.length 1) (n_portfolios / 3)).2
        (List.replicate stocks.length (65 / 100)) (n_portfolios / 3)).1 ++
      (dirichlet
        (dirichlet
          (dirichlet seed (List.replicate stocks.length 1) (n_portfolios / 3)).2
          (List.replicate stocks.length (65 / 100)) (n_portfolios / 3)).2
        (List.replicate stocks.length 2) (n_portfolios / 3)).1 ++
      identityRows stocks.length := by
  constructor
  · intro value
    unfold generate_random_portfolios
    by_cases hv : value > 0 <;>
      simp [hv, hlen, identityRows] <;> ring
  · unfold generate_random_portfolios
    rw [if_pos (by norm_num : (1 : ℚ) > 0)]
    simp [one_mul, List.append_assoc]

/-- C7 witness: a two-asset universe, seven requested portfolios and a
sampler that emits a constant batch while passing its state through. -/
theorem random_portfolios_structure_witness :
    (∀ st a n, (((fun (st : ℕ) (a : List ℚ) (n : ℕ) =>
        (List.replicate n a, st)) st a n).1).length = n) ∧
    (∀ value : ℚ,
      (generate_random_portfolios
        (fun (st : ℕ) (a : List ℚ) (n : ℕ) => (List.replicate n a, st))
        ["A", "B"] 7 123 value).length = 3 * (7 / 3) + ["A", "B"].length) :=
  ⟨fun st a n => by simp,
   (random_portfolios_structure
     (fun (st : ℕ) (a : List ℚ) (n : ℕ) => (List.replicate n a, st))
     ["A", "B"] 7 123 (fun st a n => by simp)).1⟩

/-- C8: the max-diversification entry point always invokes the engine with
model Classic, objective Sharpe, risk measure MV and zero risk-free rate,
after replacing the estimated mean vector by the per-asset standard
deviation of the return series. -/
theorem max_div_engine_call (stock_returns : ReturnMatrix)
    (mu_est : List (String × ℝ)) (cov_est : List (List ℝ))
    (value value_short : ℚ) :
    (max_div_call stock_returns mu_est cov_est value value_short).rm = "MV" ∧
    (max_div_call stock_returns mu_est cov_est value value_short).obj = "Sharpe" ∧
    (max_div_call stock_returns mu_est cov_est value value_short).rf = 0 ∧
    (max_div_call stock_returns mu_est cov_est value value_short).model = "Classic" ∧
    (max_div_call stock_returns mu_est cov_est value value_short).port.mu =
      returns_std stock_returns ∧
    (∀ engine : OptimizationCall → Option Weights,
      get_max_diversification_portfolio stock_returns mu_est cov_est value
        value_short engine =
      (postRound (engine (max_div_call stock_returns mu_est cov_est value
        value_short)), stock_returns)) := by
  refine ⟨rfl, rfl, rfl, rfl, ?_, fun engine => rfl⟩
  unfold max_div_call max_div_port
  by_cases hv : value_short > 0 <;> simp [hv]

/-- C9: equal weights assign each ticker value times round(1/N, 5),
independently of the return data; for the two-asset universe at value one
each ticker gets exactly one half. -/
theorem equal_weights_formula (stocks : List String)
    (stock_returns stock_returns2 : ReturnMatrix) (value : ℚ)
    (_hne : stocks ≠ []) :
    (get_equal_weights stocks stock_returns value).1 =
      stocks.map (fun stock => (stock, value * round5 (1 / stocks.length))) ∧
    (get_equal_weights stocks stock_returns value).1 =
      (get_equal_weights stocks stock_returns2 value).1 ∧
    (get_equal_weights ["A", "B"] stock_returns 1).1 =
      [("A", 1 / 2), ("B", 1 / 2)] := by
  refine ⟨rfl, rfl, ?_⟩
  norm_num [get_equal_weights, round5, roundHalfEven]

/-- C9 witness: the two-asset universe with value one. -/
theorem equal_weights_formula_witness :
    (["A", "B"] ≠ ([] : List String)) ∧
    (get_equal_weights ["A", "B"] demoReturns 1).1 =
      [("A", 1 / 2), ("B", 1 / 2)] :=
  ⟨by decide,
   (equal_weights_formula ["A", "B"] demoReturns demoReturns 1 (by decide)).2.2⟩

/-- C10: lowercase frequency codes d, w and m are accepted by the entry
points that rescale the risk-free rate or target return, and give the same
result as the corresponding uppercase code, since every frequency-table
lookup upcases the code first. -/
theorem lowercase_freq_equiv
    (lo up : String) (hlu : (lo, up) ∈ [("d", "D"), ("w", "W"), ("m", "M")])
    (stock_returns : ReturnMatrix) (risk_measure objective version : String)
    (risk_free_rate risk_aversion alpha target_return target_risk : ℚ)
    (penal_factor : ℚ) (risk_cont : Option (List ℚ))
    (mu_est : List (String × ℝ)) (cov_est : List (List ℝ))
    (value value_short : ℚ)
    (model codependence covariance : String) (a_sim : ℕ) (beta : Option ℚ)
    (b_sim : Option ℕ) (linkage : String) (k max_k : ℕ) (bins_info : String)
    (alpha_tail : ℚ) (leaf_order : Bool) (d_ewma : ℚ)
    (engineO : OptimizationCall → Option Weights)
    (engineRP : RPCall → Option Weights)
    (engineRRP : RRPCall → Option Weights)
    (engineHC : HCPCall → Option Weights) :
    (time_factor.lookup (pyUpper lo)).isSome = true ∧
    get_mean_risk_portfolio stock_returns lo risk_measure objective
      risk_free_rate risk_aversion alpha target_return target_risk mu_est
      cov_est value value_short engineO =
    get_mean_risk_portfolio stock_returns up risk_measure objective
      risk_free_rate risk_aversion alpha target_return target_risk mu_est
      cov_est value value_short engineO ∧
    get_risk_parity_portfolio stock_returns lo risk_measure risk_cont
      risk_free_rate alpha target_return value mu_est cov_est engineRP =
    get_risk_parity_portfolio stock_returns up risk_measure risk_cont
      risk_free_rate alpha target_return value mu_est cov_est engineRP ∧
    get_rel_risk_parity_portfolio stock_returns lo version risk_cont
      penal_factor target_return value mu_est cov_est engineRRP =
    get_rel_risk_parity_portfolio stock_returns up version risk_cont
      penal_factor target_return value mu_est cov_est engineRRP ∧
    get_hcp_portfolio stock_returns lo model codependence covariance
      objective risk_measure risk_free_rate risk_aversion alpha a_sim beta
      b_sim linkage k max_k bins_info alpha_tail leaf_order d_ewma value
      engineHC =
    get_hcp_portfolio stock_returns up model codependence covariance
      objective risk_measure risk_free_rate risk_aversion alpha a_sim beta
      b_sim linkage k max_k bins_info alpha_tail leaf_order d_ewma value
      engineHC := by
  have hcases : (lo = "d" ∧ up = "D") ∨ (lo = "w" ∧ up = "W") ∨
      (lo = "m" ∧ up = "M") := by
    simpa [Prod.ext_iff] using hlu
  have hup : pyUpper lo = pyUpper up := by
    rcases hcases with ⟨h1, h2⟩ | ⟨h1, h2⟩ | ⟨h1, h2⟩ <;> subst h1 <;>
      subst h2 <;> decide
  have hsome : (time_factor.lookup (pyUpper lo)).isSome = true := by
    rcases hcases with ⟨h1, h2⟩ | ⟨h1, h2⟩ | ⟨h1, h2⟩ <;> subst h1 <;> decide
  refine ⟨hsome, ?_, ?_, ?_, ?_⟩
  · unfold get_mean_risk_portfolio mean_risk_port
    rw [hup]
  · unfold get_risk_parity_portfolio rp_call rp_port
    rw [hup]
  · unfold get_rel_risk_parity_portfolio rrp_call rrp_port
    rw [hup]
  · unfold get_hcp_portfolio
    rw [hup]

/-- C10 witness: lowercase d against uppercase D in concrete calls. -/
theorem lowercase_freq_equiv_witness :
    (("d", "D") ∈ [("d", "D"), ("w", "W"), ("m", "M")]) ∧
    ((time_factor.lookup (pyUpper "d")).isSome = true ∧
     get_mean_risk_portfolio demoReturns "d" "MV" "Sharpe" 0 2 (5 / 100) (-1)
       (-1) [] [] 1 0 (fun _ => none) =
     get_mean_risk_portfolio demoReturns "D" "MV" "Sharpe" 0 2 (5 / 100) (-1)
       (-1) [] [] 1 0 (fun _ => none) ∧
     get_risk_parity_portfolio demoReturns "d" "MV" none 0 (5 / 100) (-1) 1
       [] [] (fun _ => none) =
     get_risk_parity_portfolio demoReturns "D" "MV" none 0 (5 / 100) (-1) 1
       [] [] (fun _ => none) ∧
     get_rel_risk_parity_portfolio demoReturns "d" "A" none 1 (-1) 1 [] []
       (fun _ => none) =
     get_rel_risk_parity_portfolio demoReturns "D" "A" none 1 (-1) 1 [] []
       (fun _ => none) ∧
     get_hcp_portfolio demoReturns "d" "HRP" "pearson" "hist" "MinRisk" "MV"
       0 1 (5 / 100) 100 none none "single" 0 10 "KN" (5 / 100) true
       (94 / 100) 1 (fun _ => none) =
     get_hcp_portfolio demoReturns "D" "HRP" "pearson" "hist" "MinRisk" "MV"
       0 1 (5 / 100) 100 none none "single" 0 10 "KN" (5 / 100) true
       (94 / 100) 1 (fun _ => none)) :=
  ⟨by decide,
   lowercase_freq_equiv "d" "D" (by decide) demoReturns "MV" "Sharpe" "A" 0 2
     (5 / 100) (-1) (-1) 1 none [] [] 1 0 "HRP" "pearson" "hist" 100 none
     none "single" 0 10 "KN" (5 / 100) true (94 / 100) (fun _ => none)
     (fun _ => none) (fun _ => none) (fun _ => none)⟩

end OptimizerModel
